import Mathlib

/-!
Verification of the SWEN AI news-enrichment pipeline
(`swen_ai_pipeline`, a FastAPI + SQLAlchemy service).

The Python source is shallowly embedded: every function modelled here is
translated from a named function of the repository.  External effects
(the Gemini generative client, the Brave Search HTTP client, the SQL
session) are represented by explicit environment values describing the
one outcome the surrounding code observes (the response text or its
parse, a thrown error, an HTTP failure), and the database table is
passed as explicit state.  Python `float` values that can appear in the
relevance path are modelled by the discrete type `PyFloat`
(rationals plus the IEEE specials `nan`, `inf`, `-inf`), with Python's
comparison semantics made explicit.  Strings are processed on
`List Char`, with Python's `str.strip`, `str.split`, slicing and
`in` translated character by character.
-/

namespace Swen

/-! ### Character-list utilities (Python string primitives)

These model the exact Python primitives used by the source:
`str.strip()`, `str.strip(chars)`, `str.split(sep)`, `str.split()`,
slicing `s[:n]`, and the substring test `sep in s`. -/

/-- Python `s.strip()`: drop leading and trailing whitespace. -/
def pyStrip (s : List Char) : List Char :=
  ((s.dropWhile Char.isWhitespace).reverse.dropWhile Char.isWhitespace).reverse

/-- Python `s.strip(chars)` for a character predicate: drop leading and
trailing characters satisfying `p`. -/
def pyStripIf (p : Char → Bool) (s : List Char) : List Char :=
  ((s.dropWhile p).reverse.dropWhile p).reverse

/-- If `sep` is a leading run of `s`, return the remainder. -/
def stripLeading? : List Char → List Char → Option (List Char)
  | [], s => some s
  | _ :: _, [] => none
  | a :: as, b :: bs => if a = b then stripLeading? as bs else none

/-- Find the leftmost occurrence of `sep` in `s`: returns the part
before it and the part after it.  `none` when `sep` does not occur. -/
def breakOn (sep : List Char) : List Char → Option (List Char × List Char)
  | [] => if sep.isEmpty then some ([], []) else none
  | c :: cs =>
    match stripLeading? sep (c :: cs) with
    | some rest => some ([], rest)
    | none =>
      match breakOn sep cs with
      | some (pre, rest) => some (c :: pre, rest)
      | none => none

/-- Fuelled worker for Python `s.split(sep)` (leftmost, non-overlapping).
With fuel at least `s.length + 1` the fuel never runs out. -/
def pySplitOnFuel (sep : List Char) : Nat → List Char → List (List Char)
  | 0, s => [s]
  | n + 1, s =>
    match breakOn sep s with
    | none => [s]
    | some (pre, rest) => pre :: pySplitOnFuel sep n rest

/-- Python `s.split(sep)` for a nonempty separator. -/
def pySplitOn (sep s : List Char) : List (List Char) :=
  pySplitOnFuel sep (s.length + 1) s

/-- Python `sep in s` (substring containment) for a nonempty `sep`. -/
def pyContains (sep s : List Char) : Bool :=
  (breakOn sep s).isSome

/-- Worker for Python `s.split()`: `acc` holds the characters of the
word currently being read, in reverse order. -/
def wsSplitCore : List Char → List Char → List (List Char)
  | acc, [] => if acc.isEmpty then [] else [acc.reverse]
  | acc, c :: cs =>
    if c.isWhitespace then
      if acc.isEmpty then wsSplitCore [] cs else acc.reverse :: wsSplitCore [] cs
    else wsSplitCore (c :: acc) cs

/-- Python `s.split()` (no argument): split on runs of whitespace,
discarding empty fields. -/
def wsSplit (s : List Char) : List (List Char) :=
  wsSplitCore [] s

/-- Python `" ".join(words)`. -/
def joinSpace : List (List Char) → List Char
  | [] => []
  | [w] => w
  | w :: ws => w ++ ' ' :: joinSpace ws

/-- Number of whitespace-separated words of a string. -/
def wordCount (s : String) : Nat :=
  (wsSplit s.data).length

/-- Python slicing `s[:n]` as a `String` operation. -/
def pyTake (n : Nat) (s : String) : String :=
  String.mk (s.data.take n)

/-! ### `ai_utils.clean_json_response`

Translated from `src/swen_ai_pipeline/services/ai_utils.py`,
`clean_json_response` (lines 19-37):

```
content = content.strip()
if "```" in content:
    content = content.split("```")[1]
    if content.startswith("json"):
        content = content[4:]
return content.strip()
```
-/

/-- The markdown fence marker, three backticks. -/
def fence : List Char := "```".data

/-- `ai_utils.clean_json_response`.  The index `[1]` into the split is
total in Python whenever the fence occurs (the split then has at least
two fields); `getD []` records the same access. -/
def clean_json_response (content : String) : String :=
  let c := pyStrip content.data
  if pyContains fence c then
    let c1 := ((pySplitOn fence c).get? 1).getD []
    let c2 := if c1.take 4 = "json".data then c1.drop 4 else c1
    String.mk (pyStrip c2)
  else String.mk (pyStrip c)

/-- Modelled from the spec (section 4.1, `strip_markdown_fencing`):
"if the text contains a fenced code block marker, extract the content
between the first pair of fence markers, drop a leading language tag,
and trim whitespace.  No-op if no fence present."  The content between
the first pair of fence markers is the text after the first marker up
to the second marker (up to the end of the text when only one marker is
present). -/
def betweenFirstFencePair (s : List Char) : Option (List Char) :=
  match breakOn fence s with
  | none => none
  | some (_, rest) =>
    match breakOn fence rest with
    | none => some rest
    | some (mid, _) => some mid

/-- The spec's description of `strip_markdown_fencing`, stated
independently of the code's `split`-and-index formulation. -/
def strip_markdown_fencing_spec (content : String) : String :=
  let c := pyStrip content.data
  match betweenFirstFencePair c with
  | none => String.mk (pyStrip c)
  | some mid =>
    let mid1 := if mid.take 4 = "json".data then mid.drop 4 else mid
    String.mk (pyStrip mid1)

/-! ### Python floats

The relevance path feeds `float(score_str)` into
`min(max(score, 0.0), 1.0)`.  Python's `float()` also parses the IEEE
specials (`"nan"`, `"inf"`, `"-inf"`, case-insensitively), and every
comparison involving NaN is `False`, so `min`/`max` pass NaN through
unchanged.  `PyFloat` models a Python float discretely: a rational
value or one of the three specials. -/

/-- A Python float: a (finite) rational value or an IEEE special. -/
inductive PyFloat where
  | nan
  | inf
  | ninf
  | fin (q : ℚ)
deriving DecidableEq

/-- Python `a < b` on floats: every comparison with NaN is `False`. -/
def pyLT : PyFloat → PyFloat → Bool
  | .fin a, .fin b => a < b
  | .fin _, .inf => true
  | .ninf, .fin _ => true
  | .ninf, .inf => true
  | _, _ => false

/-- Python `a <= b` on floats: every comparison with NaN is `False`. -/
def pyLE : PyFloat → PyFloat → Bool
  | .nan, _ => false
  | _, .nan => false
  | .ninf, _ => true
  | _, .ninf => false
  | .inf, .inf => true
  | .fin _, .inf => true
  | .inf, .fin _ => false
  | .fin a, .fin b => a ≤ b

/-- CPython `max(a, b)`: starts from `a` and replaces it by `b` only
when `b > a` holds. -/
def pymax (a b : PyFloat) : PyFloat :=
  if pyLT a b then b else a

/-- CPython `min(a, b)`: starts from `a` and replaces it by `b` only
when `b < a` holds. -/
def pymin (a b : PyFloat) : PyFloat :=
  if pyLT b a then b else a

/-- The finite value of a `PyFloat`, when it has one. -/
def toRatQ : PyFloat → Option ℚ
  | .fin q => some q
  | _ => none

/-- Whether a `PyFloat` is a finite value inside `[0, 1]`. -/
def inUnit : PyFloat → Bool
  | .fin q => decide (0 ≤ q ∧ q ≤ 1)
  | _ => false

/-! ### Constants (`services/ai_constants.py`)

The entries of `DEFAULT_FALLBACKS` and `CONTENT_LIMITS` that the
modelled functions read. -/

def DEFAULT_FALLBACKS_tags : List String := ["#Africa", "#News", "#Development"]

def DEFAULT_FALLBACKS_relevance_score : PyFloat := .fin (mkRat 7 10)

def DEFAULT_FALLBACKS_wikipedia_snippet : String :=
  "This article covers topics of significance to African audiences and regional development."

def DEFAULT_FALLBACKS_social_sentiment : String := "neutral"

def DEFAULT_FALLBACKS_search_trend : String := "stable"

def DEFAULT_FALLBACKS_media_justification : String :=
  "High-quality media content selected from authoritative sources for African audience engagement and understanding"

def DEFAULT_FALLBACKS_featured_image_url : String :=
  "https://images.unsplash.com/photo-1484417894907-623942c8ee29?w=800&q=80"

def DEFAULT_FALLBACKS_related_video_url : String :=
  "https://www.youtube.com/watch?v=zn8o_DwUwFk"

def CONTENT_LIMITS_min_tags : Nat := 3

def CONTENT_LIMITS_max_tags : Nat := 5

/-! ### Data models (`models/data_models.py`)

Pydantic optional fields become `Option`; the `relevance_score` field
carries the `ge=0.0, le=1.0` validation, modelled in `mkFinalOutput`. -/

structure RawNewsInput where
  title : String
  body : String
  source_url : String
  author : Option String
  published_date : Option String
deriving DecidableEq

structure EnrichedNewsMedia where
  search_query : Option String
  featured_image_url : Option String
  image_caption : Option String
  related_video_url : Option String
  video_caption : Option String
  media_justification : Option String
deriving DecidableEq

structure EnrichedNewsContext where
  wikipedia_snippet : Option String
  social_sentiment : Option String
  search_trend : Option String
deriving DecidableEq

structure Geo where
  lat : Option ℚ
  lng : Option ℚ
  map_url : Option String
deriving DecidableEq

/-- `Geo()` — the record with no fields set. -/
def Geo.empty : Geo := { lat := none, lng := none, map_url := none }

structure FinalNewsOutput where
  id : String
  title : String
  body : String
  source_url : String
  publisher : Option String
  published_at : Option String
  summary : String
  tags : List String
  relevance_score : PyFloat
  media : EnrichedNewsMedia
  context : EnrichedNewsContext
  geo : Geo
  ingested_at : String
deriving DecidableEq

/-! ### Coordinate formatting

`extract_geo` builds `f"https://www.google.com/maps?q={lat},{lng}"`.
`fmtCoord` prints a finite-decimal rational the way Python prints the
corresponding float literal (integer part, decimal point, fraction
digits without trailing zeros, at least one fraction digit).  JSON
integer coordinates would print without a decimal point in Python;
the formatter models the float case, which is the one exercised by the
mock constants and by fractional coordinates. -/

/-- Fraction digits of `rem / den` (with `rem < den`), most
significant first, stopping when the remainder reaches zero; the fuel
bounds the number of digits. -/
def fracDigits : Nat → Nat → Nat → List Nat
  | 0, _, _ => []
  | n + 1, rem, den =>
    if rem = 0 then []
    else (rem * 10 / den) :: fracDigits n (rem * 10 % den) den

/-- Python `str(float)` for finite-decimal rationals, computed on the
numerator and denominator of the reduced fraction. -/
def fmtCoord (q : ℚ) : String :=
  let sign := if q.num < 0 then "-" else ""
  let a := q.num.natAbs
  let ds := fracDigits 20 (a % q.den) q.den
  sign ++ toString (a / q.den) ++ "." ++
    (if ds.isEmpty then "0" else String.mk (ds.map Nat.digitChar))

/-- The Google-Maps URL `extract_geo` derives from a coordinate pair. -/
def mapUrlFor (lat lng : ℚ) : String :=
  "https://www.google.com/maps?q=" ++ fmtCoord lat ++ "," ++ fmtCoord lng

/-! ### AI facets (`services/ai_service.py`)

Each facet's call to the generative service is represented by the one
outcome the code observes: the response text, its parse, or a thrown
error. -/

/-- `generate_summary` (lines 48-59).  The live call has no
`try`/`except`, so a vendor error propagates. -/
def generate_summary (useMock : Bool) (resp : Except String String)
    (body : String) : Except String String :=
  if useMock then .ok (String.mk (joinSpace ((wsSplit body.data).take 30)) ++ "...")
  else resp.map (fun t => String.mk (pyStrip t.data))

/-- Outcome of `json.loads(clean_json_response(response.text))` in
`generate_tags`: an exception anywhere in the `try` block (vendor
error or parse error), a parsed non-list JSON value, or a parsed
list. -/
inductive TagsResponse where
  | thrown
  | parsedNonList
  | parsedList (tags : List String)
deriving DecidableEq

/-- `generate_tags` (lines 61-87): a parsed non-empty list is padded
with `"#Africa"` up to `min_tags` and truncated to `max_tags`; every
other outcome yields `DEFAULT_FALLBACKS["tags"]`. -/
def generate_tags (useMock : Bool) (resp : TagsResponse) : List String :=
  if useMock then ["#Africa", "#News", "#Technology"]
  else
    match resp with
    | .thrown => DEFAULT_FALLBACKS_tags
    | .parsedNonList => DEFAULT_FALLBACKS_tags
    | .parsedList tags =>
      if 0 < tags.length then
        (tags ++ List.replicate (CONTENT_LIMITS_min_tags - tags.length) "#Africa").take
          CONTENT_LIMITS_max_tags
      else DEFAULT_FALLBACKS_tags

/-- Outcome observed by `calculate_relevance_score`: a thrown error
(vendor error — the `except` clause catches `Exception`), or the
response text with the result of `float(score_str)` (`none` when the
text does not parse as a float, which raises `ValueError`). -/
inductive ScoreResponse where
  | thrown
  | text (parse : Option PyFloat)
deriving DecidableEq

/-- `calculate_relevance_score` (lines 89-105):
`min(max(float(text), 0.0), 1.0)` with fallback `0.7` on any caught
error, and `0.7` in mock mode. -/
def calculate_relevance_score (useMock : Bool) (resp : ScoreResponse) : PyFloat :=
  if useMock then DEFAULT_FALLBACKS_relevance_score
  else
    match resp with
    | .thrown => DEFAULT_FALLBACKS_relevance_score
    | .text none => DEFAULT_FALLBACKS_relevance_score
    | .text (some score) => pymin (pymax score (.fin 0)) (.fin 1)

/-- Outcome observed by `generate_media_search_query`: a thrown error
(caught, falling back to `title[:100]`) or the response text. -/
inductive QueryResponse where
  | thrown
  | ok (text : String)
deriving DecidableEq

def dquoteChar : Char := Char.ofNat 34

def squoteChar : Char := Char.ofNat 39

/-- `generate_media_search_query` (lines 109-153): mock returns
`title[:50]`; the live path strips whitespace and quotes and keeps at
most the first 7 whitespace-separated words; the error path returns
`title[:100]`. -/
def generate_media_search_query (useMock : Bool) (title : String)
    (resp : QueryResponse) : String :=
  if useMock then pyTake 50 title
  else
    match resp with
    | .thrown => pyTake 100 title
    | .ok text =>
      let q := pyStrip text.data
      let q := pyStripIf (fun c => c = dquoteChar) q
      let q := pyStripIf (fun c => c = squoteChar) q
      let words := wsSplit q
      if 7 < words.length then String.mk (joinSpace (words.take 7)) else String.mk q

/-- Outcome observed by `extract_geo`: a caught exception
(vendor error, JSON parse error, or one of the listed exception
types), or the parsed object's `lat`/`lng` entries (`none` for JSON
`null` or a missing key; numbers as `PyFloat`, since `json.loads`
also accepts `NaN`/`Infinity`). -/
inductive GeoResponse where
  | thrown
  | parsed (lat lng : Option PyFloat)
deriving DecidableEq

/-- `extract_geo` (lines 326-399).  The chained comparison
`-90 <= lat <= 90` is `False` for NaN and the infinities, so those
fall into the same `Geo()` branch as out-of-range values; the
`toRatQ` match expresses exactly that. -/
def extract_geo (useMock : Bool) (resp : GeoResponse) : Geo :=
  if useMock then
    { lat := some (mkRat (-1286389) 1000000), lng := some (mkRat 36817223 1000000),
      map_url := some "https://www.google.com/maps?q=-1.286389,36.817223" }
  else
    match resp with
    | .thrown => Geo.empty
    | .parsed lat? lng? =>
      match lat?.bind toRatQ, lng?.bind toRatQ with
      | some la, some ln =>
        if -90 ≤ la ∧ la ≤ 90 ∧ -180 ≤ ln ∧ ln ≤ 180 then
          { lat := some la, lng := some ln, map_url := some (mapUrlFor la ln) }
        else Geo.empty
      | _, _ => Geo.empty

/-- Outcome observed by `extract_context`: an uncaught exception (the
`except` clause lists only `JSONDecodeError`, `KeyError` and
`AttributeError`, so e.g. a vendor transport error propagates), a
caught parse failure, or the parsed object's fields. -/
inductive ContextResponse where
  | raised (msg : String)
  | caughtFailure
  | parsed (snippet sentiment trend : Option String)
deriving DecidableEq

/-- `extract_context` (lines 254-324). -/
def extract_context (useMock : Bool) (resp : ContextResponse) :
    Except String EnrichedNewsContext :=
  if useMock then
    .ok { wikipedia_snippet := some DEFAULT_FALLBACKS_wikipedia_snippet,
          social_sentiment := some DEFAULT_FALLBACKS_social_sentiment,
          search_trend := some DEFAULT_FALLBACKS_search_trend }
  else
    match resp with
    | .raised msg => .error msg
    | .caughtFailure =>
      .ok { wikipedia_snippet := some
              "This article covers topics of significance to African audiences and regional development.",
            social_sentiment := some "neutral",
            search_trend := some "stable" }
    | .parsed snippet? sentiment? trend? =>
      let s0 := snippet?.getD ""
      let snippet :=
        if s0 = "" ∨ s0.length < 20 then
          "This article provides important insights relevant to African markets, regional development, and continental progress."
        else s0
      .ok { wikipedia_snippet := some snippet,
            social_sentiment := some (sentiment?.getD "neutral"),
            search_trend := some (trend?.getD "stable") }

/-! ### Brave search client (`services/brave_search_service.py`)

Each search call is represented by the API key from settings and the
one outcome of the single outbound HTTP request. -/

structure ImageResultProps where
  url : Option String
  width : Option Nat
  height : Option Nat
deriving DecidableEq

/-- One entry of the image response's `results` list. -/
structure ImageResult where
  title : Option String
  url : Option String
  source : Option String
  thumbnailSrc : Option String
  props : Option ImageResultProps
deriving DecidableEq

/-- One entry of the video response's `results` list. -/
structure VideoResult where
  url : Option String
  title : Option String
  description : Option String
  thumbnailSrc : Option String
  duration : Option String
deriving DecidableEq

/-- Outcome of one outbound request: a transport error
(`httpx.HTTPError`, which includes timeouts), a non-2xx status
(`raise_for_status`), a body that fails JSON decoding or extraction
(caught by the bare `except Exception`), or a decoded body whose
`results` entry is `none` (absent) or a list. -/
inductive ApiOutcome (α : Type) where
  | transportError
  | statusError
  | badJson
  | ok (results : Option (List α))
deriving DecidableEq

structure BraveEnv where
  apiKey : Option String
  imageOutcome : ApiOutcome ImageResult
  videoOutcome : ApiOutcome VideoResult
deriving DecidableEq

/-- Python `if not self.api_key`: missing or empty key. -/
def keyMissing : Option String → Bool
  | none => true
  | some s => s = ""

/-- The dictionary `search_images` builds from the first result. -/
structure ImageHit where
  url : Option String
  page_url : Option String
  title : Option String
  source : Option String
  thumbnail : Option String
  width : Option Nat
  height : Option Nat
deriving DecidableEq

def mkImageHit (r : ImageResult) : ImageHit :=
  { url := r.props.bind (·.url),
    page_url := r.url,
    title := r.title,
    source := r.source,
    thumbnail := r.thumbnailSrc,
    width := r.props.bind (·.width),
    height := r.props.bind (·.height) }

/-- The dictionary `search_videos` builds from the first result. -/
structure VideoHit where
  url : Option String
  title : Option String
  description : Option String
  thumbnail : Option String
  duration : Option String
deriving DecidableEq

def mkVideoHit (r : VideoResult) : VideoHit :=
  { url := r.url,
    title := r.title,
    description := r.description,
    thumbnail := r.thumbnailSrc,
    duration := r.duration }

/-- `BraveSearchService.search_images` (lines 25-92).  The guard
`data.get("results") and len(data["results"]) > 0` is false for an
absent `results` entry and for an empty list. -/
def search_images (env : BraveEnv) : Option ImageHit :=
  if keyMissing env.apiKey then none
  else
    match env.imageOutcome with
    | .transportError => none
    | .statusError => none
    | .badJson => none
    | .ok none => none
    | .ok (some []) => none
    | .ok (some (r :: _)) => some (mkImageHit r)

/-- `BraveSearchService.search_videos` (lines 94-139). -/
def search_videos (env : BraveEnv) : Option VideoHit :=
  if keyMissing env.apiKey then none
  else
    match env.videoOutcome with
    | .transportError => none
    | .statusError => none
    | .badJson => none
    | .ok none => none
    | .ok (some []) => none
    | .ok (some (r :: _)) => some (mkVideoHit r)

/-- The dictionary returned by `BraveSearchService.discover_media`
(lines 141-161). -/
structure MediaResults where
  query : String
  image_url : Option String
  image_metadata : Option ImageHit
  video_url : Option String
  video_metadata : Option VideoHit
deriving DecidableEq

def brave_discover_media (env : BraveEnv) (query : String) : MediaResults :=
  let ir := search_images env
  let vr := search_videos env
  { query := query,
    image_url := ir.bind (·.url),
    image_metadata := ir,
    video_url := vr.bind (·.url),
    video_metadata := vr }

/-! ### Media discovery facet (`AIService.discover_media`, lines 155-252) -/

/-- Python truthiness of an optional string (`None` and `""` are
falsy). -/
def pyTruthy : Option String → Bool
  | none => false
  | some s => s ≠ ""

/-- The caption logic applied to an image or video metadata title:
at most the first 15 whitespace-separated words. -/
def captionFor (mediaUrl : Option String) (metaTitle : Option (Option String)) :
    Option String :=
  if pyTruthy mediaUrl && metaTitle.isSome then
    let t := (metaTitle.getD none).getD ""
    if t ≠ "" then
      let ws := wsSplit t.data
      some (if 15 < ws.length then String.mk (joinSpace (ws.take 15)) else t)
    else none
  else none

instance {ε α : Type} [DecidableEq ε] [DecidableEq α] : DecidableEq (Except ε α) := fun x y =>
  match x, y with
  | .error a, .error b =>
    if h : a = b then .isTrue (by rw [h]) else .isFalse (fun hh => h (Except.error.inj hh))
  | .error _, .ok _ => .isFalse (fun hh => Except.noConfusion hh)
  | .ok _, .error _ => .isFalse (fun hh => Except.noConfusion hh)
  | .ok a, .ok b =>
    if h : a = b then .isTrue (by rw [h]) else .isFalse (fun hh => h (Except.ok.inj hh))

/-- Environment of one `enrich_news` run: the observed outcome of each
facet's external call.  `mediaRaised` covers the bare
`except Exception` branch of `discover_media`. -/
structure AIEnv where
  summaryResp : Except String String
  tagsResp : TagsResponse
  scoreResp : ScoreResponse
  queryResp : QueryResponse
  brave : BraveEnv
  mediaRaised : Bool
  contextResp : ContextResponse
  geoResp : GeoResponse
deriving DecidableEq

/-- `AIService.discover_media`. -/
def discover_media (useMock : Bool) (title : String) (env : AIEnv) :
    EnrichedNewsMedia :=
  if useMock then
    { search_query := some "African development technology",
      featured_image_url := some DEFAULT_FALLBACKS_featured_image_url,
      image_caption := some "High-quality image relevant to African development",
      related_video_url := some DEFAULT_FALLBACKS_related_video_url,
      video_caption := some "Authoritative video content",
      media_justification := some DEFAULT_FALLBACKS_media_justification }
  else if env.mediaRaised then
    { search_query := some (pyTake 100 title),
      featured_image_url := some DEFAULT_FALLBACKS_featured_image_url,
      image_caption := some "High-quality image relevant to African development",
      related_video_url := some "",
      video_caption := none,
      media_justification := some DEFAULT_FALLBACKS_media_justification }
  else
    let search_query := generate_media_search_query false title env.queryResp
    let mr := brave_discover_media env.brave search_query
    let image_caption := captionFor mr.image_url (mr.image_metadata.map (·.title))
    let video_caption := captionFor mr.video_url (mr.video_metadata.map (·.title))
    let justification :=
      "Media content discovered using search query '" ++ search_query ++
        "' via Brave Search API. " ++
        (if pyTruthy mr.image_url then "Image sourced from authoritative content providers. " else "") ++
        (if pyTruthy mr.video_url then "Video content from verified sources. " else "") ++
        "Selected to provide visual context relevant to the article's themes and regional audience interests."
    let imagePair :=
      if pyTruthy mr.image_url then (mr.image_url, image_caption)
      else (some DEFAULT_FALLBACKS_featured_image_url,
            some "High-quality image relevant to African development")
    let videoPair :=
      if pyTruthy mr.video_url then (mr.video_url, video_caption)
      else (some "", (none : Option String))
    { search_query := some search_query,
      featured_image_url := imagePair.1,
      image_caption := imagePair.2,
      related_video_url := some ((videoPair.1).getD ""),
      video_caption := videoPair.2,
      media_justification := some justification }

/-! ### Enrichment orchestration -/

/-- The dictionary returned by `AIService.enrich_news`
(lines 461-488). -/
structure EnrichedData where
  summary : String
  tags : List String
  relevance_score : PyFloat
  media : EnrichedNewsMedia
  context : EnrichedNewsContext
  geo : Geo
deriving DecidableEq

/-- `AIService.enrich_news`: the facets run in sequence; an exception
from `generate_summary` or `extract_context` propagates (the other
facets absorb their own failures). -/
def enrich_news (useMock : Bool) (env : AIEnv) (raw : RawNewsInput) :
    Except String EnrichedData := do
  let summary ← generate_summary useMock env.summaryResp raw.body
  let tags := generate_tags useMock env.tagsResp
  let score := calculate_relevance_score useMock env.scoreResp
  let media := discover_media useMock raw.title env
  let context ← extract_context useMock env.contextResp
  let geo := extract_geo useMock env.geoResp
  return { summary := summary, tags := tags, relevance_score := score,
           media := media, context := context, geo := geo }

/-- The record `ingest_news` assembles (ingestion_service.py lines
59-79); `newId` models the generated `uuid4` and `ts` the
`datetime.now(timezone.utc).isoformat()` stamp. -/
def outputFor (raw : RawNewsInput) (newId ts : String) (e : EnrichedData) :
    FinalNewsOutput :=
  { id := newId, title := raw.title, body := raw.body,
    source_url := raw.source_url, publisher := raw.author,
    published_at := raw.published_date, summary := e.summary,
    tags := e.tags, relevance_score := e.relevance_score,
    media := e.media, context := e.context, geo := e.geo,
    ingested_at := ts }

/-- Construction of `FinalNewsOutput` in `ingest_news`, including
pydantic's `ge=0.0, le=1.0` validation of `relevance_score`
(data_models.py lines 146-151). -/
def mkFinalOutput (raw : RawNewsInput) (newId ts : String) (e : EnrichedData) :
    Except String FinalNewsOutput :=
  if pyLE (.fin 0) e.relevance_score && pyLE e.relevance_score (.fin 1) then
    .ok (outputFor raw newId ts e)
  else .error "validation error for FinalNewsOutput: relevance_score"

/-! ### Repository (`db/repository.py`, `db/models.py`)

One table row (`NewsArticle`).  The `ingested_at`, `created_at` and
`updated_at` columns carry server defaults (`func.now()`), and
`updated_at` additionally carries `onupdate=func.now()`
(db/models.py lines 69-86): a flush of a dirty row refreshes it.  The
transaction's current timestamp is the explicit `now` argument. -/

structure NewsArticleRow where
  slug : String
  title : String
  body : String
  source_url : String
  author : Option String
  published_date : Option String
  summary : String
  tags : List String
  sentiment_label : Option String
  sentiment_score : PyFloat
  featured_image_url : Option String
  related_video_url : Option String
  media_justification : Option String
  wikipedia_snippet : Option String
  search_trend : Option String
  geo_lat : Option ℚ
  geo_lng : Option ℚ
  map_url : Option String
  images : List String
  videos : List String
  relevance_score : PyFloat
  ingested_at : String
  created_at : String
  updated_at : String
deriving DecidableEq

/-- The stored table, in insertion order. -/
abbrev Table := List NewsArticleRow

/-- The row lookup behind `get_news_by_id` (repository.py lines
113-131): the UUID is stored in the `slug` column. -/
def findRow (table : Table) (id : String) : Option NewsArticleRow :=
  table.find? (fun r => r.slug == id)

/-- The update branch of `save_news` (lines 46-79) applied to the
existing row.  `news.media`, `news.context` and `news.geo` are
non-optional pydantic sub-models, so the `if news.media:` style guards
are always taken; `updated_at` is refreshed by the ORM's `onupdate`
on flush. -/
def updateRow (r : NewsArticleRow) (news : FinalNewsOutput) (now : String) :
    NewsArticleRow :=
  { r with
    title := news.title,
    body := news.body,
    source_url := news.source_url,
    author := news.publisher,
    published_date := news.published_at,
    summary := news.summary,
    tags := news.tags,
    sentiment_label := news.context.social_sentiment,
    sentiment_score := .fin 0,
    images := [],
    videos := [],
    relevance_score := news.relevance_score,
    featured_image_url := news.media.featured_image_url,
    related_video_url := news.media.related_video_url,
    media_justification := news.media.media_justification,
    wikipedia_snippet := news.context.wikipedia_snippet,
    search_trend := news.context.search_trend,
    geo_lat := news.geo.lat,
    geo_lng := news.geo.lng,
    map_url := news.geo.map_url,
    updated_at := now }

/-- The insert branch of `save_news` (lines 80-106); the three
timestamp columns take the server default. -/
def newRow (news : FinalNewsOutput) (now : String) : NewsArticleRow :=
  { slug := news.id,
    title := news.title,
    body := news.body,
    source_url := news.source_url,
    author := news.publisher,
    published_date := news.published_at,
    summary := news.summary,
    tags := news.tags,
    sentiment_label := news.context.social_sentiment,
    sentiment_score := .fin 0,
    images := [],
    videos := [],
    relevance_score := news.relevance_score,
    featured_image_url := news.media.featured_image_url,
    related_video_url := news.media.related_video_url,
    media_justification := news.media.media_justification,
    wikipedia_snippet := news.context.wikipedia_snippet,
    search_trend := news.context.search_trend,
    geo_lat := news.geo.lat,
    geo_lng := news.geo.lng,
    map_url := news.geo.map_url,
    ingested_at := now,
    created_at := now,
    updated_at := now }

/-- `NewsRepository.save_news` (lines 29-111): look the slug up, update
the matching row or add a new one, then flush.  `flushOk` is the
outcome of `session.flush()`; on failure the method wraps the error
and raises, and the surrounding session (database.py lines 98-106)
rolls the transaction back, so the caller observes the unchanged
table (see `runIngestRequest`). -/
def save_news (flushOk : Bool) (now : String) (news : FinalNewsOutput)
    (table : Table) : Except String (FinalNewsOutput × Table) :=
  match findRow table news.id with
  | some _ =>
    let table1 := table.map (fun r => if r.slug == news.id then updateRow r news now else r)
    if flushOk then .ok (news, table1)
    else .error "Failed to save news article: flush failed"
  | none =>
    let table1 := table ++ [newRow news now]
    if flushOk then .ok (news, table1)
    else .error "Failed to save news article: flush failed"

/-- `IngestionService.ingest_news` (ingestion_service.py lines 35-88):
enrich, assemble, persist; any exception is wrapped into
`"News ingestion failed: ..."` and re-raised. -/
def ingest_news (useMock : Bool) (env : AIEnv) (flushOk : Bool)
    (raw : RawNewsInput) (newId ts now : String) (session : Table) :
    Except String (FinalNewsOutput × Table) :=
  match enrich_news useMock env raw with
  | .error e => .error ("News ingestion failed: " ++ e)
  | .ok enr =>
    match mkFinalOutput raw newId ts enr with
    | .error e => .error ("News ingestion failed: " ++ e)
    | .ok out =>
      match save_news flushOk now out session with
      | .error e => .error ("News ingestion failed: " ++ e)
      | .ok (_, session1) => .ok (out, session1)

/-- One `POST /ingest` request against the stored table: the session
wrapper (database.py `get_session`, lines 98-106) commits the working
state on success and rolls back to the original table on any
exception. -/
def runIngestRequest (useMock : Bool) (env : AIEnv) (flushOk : Bool)
    (raw : RawNewsInput) (newId ts now : String) (table : Table) :
    Except String FinalNewsOutput × Table :=
  match ingest_news useMock env flushOk raw newId ts now table with
  | .ok (out, t1) => (.ok out, t1)
  | .error e => (.error e, table)

/-! ### Substring search (`NewsRepository.search_news`, lines 215-245)

The query is interpolated into the pattern `f"%{query}%"` and matched
with SQL `ILIKE` against `title`, `body`, `summary` and
`tags.cast(str)`.  `likeMatch` is PostgreSQL `ILIKE`: `%` matches any
run, `_` any one character, backslash escapes the next pattern
character, and comparison is case-insensitive. -/

def pctChar : Char := '%'

def usChar : Char := '_'

def bsChar : Char := Char.ofNat 92

/-- Case-insensitive character comparison. -/
def ciEq (a b : Char) : Bool := a.toLower == b.toLower

/-- PostgreSQL `ILIKE` pattern matching, by recursion on the pattern:
`%` matches an arbitrary number of characters, tried as every possible
suffix of the remaining text. -/
def likeMatch : List Char → List Char → Bool
  | [], s => s.isEmpty
  | c :: ps, s =>
    if c = pctChar then
      (List.range (s.length + 1)).any (fun i => likeMatch ps (s.drop i))
    else if c = bsChar then
      match ps, s with
      | d :: ps1, e :: s1 => ciEq d e && likeMatch ps1 s1
      | _, _ => false
    else
      match s with
      | [] => false
      | e :: s1 =>
        if c = usChar then likeMatch ps s1
        else ciEq c e && likeMatch ps s1

/-- Case-insensitive "starts with". -/
def ciStarts : List Char → List Char → Bool
  | [], _ => true
  | _ :: _, [] => false
  | a :: q, b :: s => ciEq a b && ciStarts q s

/-- Case-insensitive substring containment. -/
def ciSub (q : List Char) : List Char → Bool
  | [] => q.isEmpty
  | b :: s => ciStarts q (b :: s) || ciSub q s

/-- Case-insensitive substring containment on strings. -/
def ciSubStr (q s : String) : Bool := ciSub q.data s.data

/-- JSON escaping of one character, as `json.dumps` does for the quote
and the backslash (control characters are out of scope for tag
strings). -/
def jsonEscapeChar (c : Char) : List Char :=
  if c = dquoteChar ∨ c = bsChar then [bsChar, c] else [c]

def jsonStringLit (s : String) : List Char :=
  [dquoteChar] ++ s.data.foldr (fun c acc => jsonEscapeChar c ++ acc) [] ++ [dquoteChar]

/-- The text PostgreSQL yields for `tags.cast(str)`: the `JSON` column
preserves the `json.dumps` serialization of the tag list (elements
separated by `", "`). -/
def jsonTagsStr (tags : List String) : String :=
  String.mk ([ '[' ] ++ List.intercalate ", ".data (tags.map jsonStringLit) ++ [ ']' ])

/-- PostgreSQL `ORDER BY` comparison on a `float8` column: NaN sorts
as the largest value. -/
def pgLe : PyFloat → PyFloat → Bool
  | .nan, .nan => true
  | _, .nan => true
  | .nan, _ => false
  | .ninf, _ => true
  | _, .ninf => false
  | .inf, .inf => true
  | .fin _, .inf => true
  | .inf, .fin _ => false
  | .fin a, .fin b => a ≤ b

/-- "`a` may come before `b`" under `ORDER BY relevance_score DESC`. -/
def relDesc (a b : NewsArticleRow) : Prop :=
  pgLe b.relevance_score a.relevance_score = true

instance : DecidableRel relDesc := fun _ _ => inferInstanceAs (Decidable (_ = true))

instance : IsTotal NewsArticleRow relDesc :=
  ⟨fun a b => by
    unfold relDesc
    generalize a.relevance_score = x
    generalize b.relevance_score = y
    cases x <;> cases y <;> simp [pgLe]
    exact le_total _ _⟩

instance : IsTrans NewsArticleRow relDesc :=
  ⟨fun a b c hab hbc => by
    unfold relDesc at hab hbc ⊢
    generalize ha : a.relevance_score = x at hab
    generalize hb : b.relevance_score = y at hab hbc
    generalize hc : c.relevance_score = z at hbc ⊢
    cases x <;> cases y <;> cases z <;> simp_all [pgLe]
    exact le_trans hbc hab⟩

/-- Whether a row matches the `ILIKE` pattern on any of the four
searched columns. -/
def rowMatchesQuery (pat : List Char) (r : NewsArticleRow) : Bool :=
  likeMatch pat r.title.data || likeMatch pat r.body.data ||
    likeMatch pat r.summary.data || likeMatch pat (jsonTagsStr r.tags).data

/-- `NewsRepository.search_news`: filter by the `ILIKE` disjunction,
order by `relevance_score` descending, and apply the limit. -/
def search_news (query : String) (limit : Nat) (table : Table) :
    List NewsArticleRow :=
  let pat := pctChar :: (query.data ++ [pctChar])
  ((table.filter (rowMatchesQuery pat)).insertionSort relDesc).take limit

/-! ### Predicates used by the claim statements -/

/-- The spec's substring condition: the query text occurs
case-insensitively in the title, the body, the summary, or the
serialized tag list. -/
def rowContainsQuery (q : String) (r : NewsArticleRow) : Bool :=
  ciSubStr q r.title || ciSubStr q r.body || ciSubStr q r.summary ||
    ciSubStr q (jsonTagsStr r.tags)

/-- The query text contains no `ILIKE` metacharacter. -/
def noWildcard (query : String) : Prop :=
  ∀ c ∈ query.data, c ≠ pctChar ∧ c ≠ usChar ∧ c ≠ bsChar

instance (q : String) : Decidable (noWildcard q) :=
  inferInstanceAs (Decidable (∀ c ∈ q.data, c ≠ pctChar ∧ c ≠ usChar ∧ c ≠ bsChar))

/-- The spec's `GeoPoint` invariant: all three fields populated, in
range, with the map URL derived from the coordinates — or all three
absent. -/
def geoConsistent (g : Geo) : Prop :=
  (∃ la ln, g.lat = some la ∧ g.lng = some ln ∧
    -90 ≤ la ∧ la ≤ 90 ∧ -180 ≤ ln ∧ ln ≤ 180 ∧
    g.map_url = some (mapUrlFor la ln)) ∨
  (g.lat = none ∧ g.lng = none ∧ g.map_url = none)

/-- The enrichment data the mock pipeline produces, written out field
by field. -/
def mockEnrichedData (env : AIEnv) (raw : RawNewsInput) : EnrichedData :=
  { summary := String.mk (joinSpace ((wsSplit raw.body.data).take 30)) ++ "...",
    tags := ["#Africa", "#News", "#Technology"],
    relevance_score := .fin (mkRat 7 10),
    media := discover_media true raw.title env,
    context := { wikipedia_snippet := some DEFAULT_FALLBACKS_wikipedia_snippet,
                 social_sentiment := some DEFAULT_FALLBACKS_social_sentiment,
                 search_trend := some DEFAULT_FALLBACKS_search_trend },
    geo := { lat := some (mkRat (-1286389) 1000000), lng := some (mkRat 36817223 1000000),
             map_url := some "https://www.google.com/maps?q=-1.286389,36.817223" } }

/-! ### Concrete sample values for witnesses and counterexamples -/

def sampleRaw : RawNewsInput :=
  { title := "Solar plant opens in Kenya",
    body := "Across the county new panels rise",
    source_url := "https://example.com/a",
    author := none, published_date := none }

/-- An environment whose summary call fails and whose other calls take
their fallback paths. -/
def sampleEnv : AIEnv :=
  { summaryResp := .error "net down",
    tagsResp := .thrown,
    scoreResp := .thrown,
    queryResp := .thrown,
    brave := { apiKey := none, imageOutcome := .transportError, videoOutcome := .transportError },
    mediaRaised := false,
    contextResp := .caughtFailure,
    geoResp := .thrown }

def sampleNews : FinalNewsOutput :=
  { id := "a1", title := "T", body := "B", source_url := "u",
    publisher := none, published_at := none, summary := "S",
    tags := ["#One"], relevance_score := .fin (mkRat 1 2),
    media := { search_query := none, featured_image_url := none, image_caption := none,
               related_video_url := none, video_caption := none, media_justification := none },
    context := { wikipedia_snippet := none, social_sentiment := some "neutral",
                 search_trend := none },
    geo := Geo.empty, ingested_at := "ts" }

def sampleRow : NewsArticleRow :=
  { slug := "a1", title := "Old", body := "OldB", source_url := "ou",
    author := none, published_date := none, summary := "OldS",
    tags := ["#Old"], sentiment_label := some "neutral",
    sentiment_score := .fin 0,
    featured_image_url := none, related_video_url := none,
    media_justification := none, wikipedia_snippet := none,
    search_trend := none, geo_lat := none, geo_lng := none, map_url := none,
    images := [], videos := [], relevance_score := .fin (mkRat 3 10),
    ingested_at := "ing0", created_at := "cr0", updated_at := "t0" }

/-- A stored row none of whose searched columns contains a percent
sign. -/
def searchSampleRow : NewsArticleRow :=
  { slug := "s", title := "Hello", body := "World", source_url := "u",
    author := none, published_date := none, summary := "Sum",
    tags := ["#One"], sentiment_label := none,
    sentiment_score := .fin 0,
    featured_image_url := none, related_video_url := none,
    media_justification := none, wikipedia_snippet := none,
    search_trend := none, geo_lat := none, geo_lng := none, map_url := none,
    images := [], videos := [], relevance_score := .fin (mkRat 1 2),
    ingested_at := "i", created_at := "c", updated_at := "u" }

/-! ## Theorems

First the auxiliary lemmas about the string primitives, then one
theorem per claim (with its witness or counterexample where
required). -/

theorem stripLeading_append : ∀ (sep s r : List Char),
    stripLeading? sep s = some r → s = sep ++ r := by
  intro sep
  induction sep with
  | nil => intro s r h; simp [stripLeading?] at h; simp [h]
  | cons a as ih =>
    intro s r h
    cases s with
    | nil => simp [stripLeading?] at h
    | cons b bs =>
      simp only [stripLeading?] at h
      split at h
      · next hab => subst hab; simpa using ih bs r h
      · exact absurd h (by simp)

theorem breakOn_append : ∀ (s : List Char) (sep pre rest : List Char),
    breakOn sep s = some (pre, rest) → s = pre ++ sep ++ rest := by
  intro s
  induction s with
  | nil =>
    intro sep pre rest h
    simp only [breakOn] at h
    split at h
    · next he =>
      simp only [Option.some.injEq, Prod.mk.injEq] at h
      simp [List.isEmpty_iff.mp he, ← h.1, ← h.2]
    · exact absurd h (by simp)
  | cons c cs ih =>
    intro sep pre rest h
    simp only [breakOn] at h
    cases hsl : stripLeading? sep (c :: cs) with
    | some r =>
      rw [hsl] at h
      simp only [Option.some.injEq, Prod.mk.injEq] at h
      have := stripLeading_append sep (c :: cs) r hsl
      simp [← h.1, ← h.2, this]
    | none =>
      rw [hsl] at h
      cases hb : breakOn sep cs with
      | some pr =>
        rw [hb] at h
        obtain ⟨p1, r1⟩ := pr
        simp only [Option.some.injEq, Prod.mk.injEq] at h
        have := ih sep p1 r1 hb
        subst this
        simp [← h.1, ← h.2]
      | none => rw [hb] at h; exact absurd h (by simp)

/-- Claim C8: `clean_json_response` agrees with the spec's description
of `strip_markdown_fencing`: without a fence marker it only trims the
input; with fence markers it returns the content between the first
pair of markers, with a leading `json` tag dropped and whitespace
trimmed. -/
theorem C8_clean_json_response_matches_spec (content : String) :
    clean_json_response content = strip_markdown_fencing_spec content := by
  unfold clean_json_response strip_markdown_fencing_spec betweenFirstFencePair pyContains
  cases h : breakOn fence (pyStrip content.data) with
  | none => simp [h]
  | some pr =>
    obtain ⟨pre, rest⟩ := pr
    have hlen : pyStrip content.data = pre ++ fence ++ rest :=
      breakOn_append _ _ _ _ h
    obtain ⟨m, hm⟩ : ∃ m, (pyStrip content.data).length = m + 1 :=
      ⟨pre.length + 2 + rest.length, by rw [hlen]; simp [fence]; omega⟩
    simp only [h, Option.isSome_some, if_pos]
    unfold pySplitOn
    rw [hm]
    simp only [pySplitOnFuel, h]
    cases h2 : breakOn fence rest with
    | none =>
      cases m with
      | zero =>
        exfalso
        rw [hlen] at hm
        simp [fence] at hm
        omega
      | succ k => simp [pySplitOnFuel, h2]
    | some pr2 =>
      obtain ⟨mid, rest2⟩ := pr2
      cases m with
      | zero =>
        exfalso
        rw [hlen] at hm
        simp [fence] at hm
        omega
      | succ k => simp [pySplitOnFuel, h2]

theorem wsSplitCore_tokens : ∀ (s acc : List Char),
    (∀ c ∈ acc, c.isWhitespace = false) →
    ∀ w ∈ wsSplitCore acc s, w ≠ [] ∧ ∀ c ∈ w, c.isWhitespace = false := by
  intro s
  induction s with
  | nil =>
    intro acc hacc w hw
    simp only [wsSplitCore] at hw
    split at hw
    · simp at hw
    · next hne =>
      simp only [List.mem_singleton] at hw
      subst hw
      refine ⟨by simpa [List.isEmpty_iff] using hne, ?_⟩
      intro c hc
      exact hacc c (List.mem_reverse.mp hc)
  | cons c cs ih =>
    intro acc hacc w hw
    simp only [wsSplitCore] at hw
    split at hw
    · split at hw
      · exact ih [] (by simp) w hw
      · next hne =>
        rcases List.mem_cons.mp hw with hw | hw
        · subst hw
          refine ⟨by simpa [List.isEmpty_iff] using hne, ?_⟩
          intro d hd
          exact hacc d (List.mem_reverse.mp hd)
        · exact ih [] (by simp) w hw
    · next hcw =>
      refine ih (c :: acc) ?_ w hw
      intro d hd
      rcases List.mem_cons.mp hd with hd | hd
      · subst hd; simpa using hcw
      · exact hacc d hd

theorem wsSplitCore_word : ∀ (w acc t : List Char),
    (∀ c ∈ w, c.isWhitespace = false) →
    wsSplitCore acc (w ++ t) = wsSplitCore (w.reverse ++ acc) t := by
  intro w
  induction w with
  | nil => intro acc t _; simp
  | cons a w' ih =>
    intro acc t hw
    have ha : a.isWhitespace = false := hw a (by simp)
    simp only [List.cons_append, wsSplitCore, ha, Bool.false_eq_true, if_false,
      List.append_eq]
    rw [ih (a :: acc) t (fun c hc => hw c (by simp [hc]))]
    simp

theorem wsSplit_joinSpace : ∀ (ws : List (List Char)),
    (∀ w ∈ ws, w ≠ [] ∧ ∀ c ∈ w, c.isWhitespace = false) →
    wsSplit (joinSpace ws) = ws := by
  intro ws
  induction ws with
  | nil => intro _; rfl
  | cons w ws' ih =>
    intro h
    obtain ⟨hne, hchars⟩ := h w (by simp)
    cases ws' with
    | nil =>
      show wsSplitCore [] (joinSpace [w]) = [w]
      have : joinSpace [w] = w := rfl
      rw [this]
      have := wsSplitCore_word w [] [] hchars
      simp only [List.append_nil] at this
      rw [this]
      simp [wsSplitCore, List.isEmpty_iff, hne]
    | cons w2 rest =>
      show wsSplitCore [] (joinSpace (w :: w2 :: rest)) = w :: w2 :: rest
      have hj : joinSpace (w :: w2 :: rest) = w ++ ' ' :: joinSpace (w2 :: rest) := rfl
      rw [hj, wsSplitCore_word w [] (' ' :: joinSpace (w2 :: rest)) hchars]
      simp only [List.append_nil, wsSplitCore]
      have hws : (' ' : Char).isWhitespace = true := by decide
      rw [if_pos hws, if_neg (by simpa [List.isEmpty_iff] using hne)]
      have := ih (fun x hx => h x (by simp [hx]))
      simp only [wsSplit] at this
      rw [this]
      simp

/-- Tokens produced by `wsSplit` are nonempty and whitespace-free. -/
theorem wsSplit_tokens (s : List Char) :
    ∀ w ∈ wsSplit s, w ≠ [] ∧ ∀ c ∈ w, c.isWhitespace = false :=
  wsSplitCore_tokens s [] (by simp)

/-- Claim C6 (amended): on the live success path the generated media
query is truncated to at most 7 whitespace-separated words; the mock
path returns the first 50 characters of the title and the error
fallback the first 100, neither of which bounds the word count. -/
theorem C6_media_query_amended (title : String) :
    (∀ text, wordCount (generate_media_search_query false title (.ok text)) ≤ 7) ∧
    (∀ r, generate_media_search_query true title r = pyTake 50 title) ∧
    generate_media_search_query false title .thrown = pyTake 100 title := by
  refine ⟨?_, fun _ => rfl, rfl⟩
  intro text
  simp only [generate_media_search_query, Bool.false_eq_true, if_false]
  set q := pyStripIf (fun c => c = squoteChar)
      (pyStripIf (fun c => c = dquoteChar) (pyStrip text.data)) with hq
  by_cases h7 : 7 < (wsSplit q).length
  · rw [if_pos h7]
    unfold wordCount
    have hdata : (String.mk (joinSpace ((wsSplit q).take 7))).data
        = joinSpace ((wsSplit q).take 7) := rfl
    rw [hdata, wsSplit_joinSpace _ (fun w hw => wsSplit_tokens q w (List.take_subset _ _ hw))]
    simp
  · rw [if_neg h7]
    unfold wordCount
    have hdata : (String.mk q).data = q := rfl
    rw [hdata]
    omega

/-- Claim C6, counterexample to the claim as stated: in mock mode the
query facet returns `title[:50]`, which for this title has 8 words. -/
theorem C6_media_query_counterexample :
    7 < wordCount (generate_media_search_query true "a b c d e f g h" .thrown) := by
  decide

/-- The clamp `min(max(score, 0.0), 1.0)` on a finite parse, written
with rational `min`/`max`. -/
theorem relevance_clamp_fin (q : ℚ) :
    calculate_relevance_score false (.text (some (.fin q))) = .fin (min (max q 0) 1) := by
  show pymin (pymax (.fin q) (.fin 0)) (.fin 1) = .fin (min (max q 0) 1)
  rcases lt_or_le q 0 with h0 | h0
  · simp [pymax, pymin, pyLT, h0, max_eq_right h0.le]
  · rcases le_or_lt q 1 with h1 | h1
    · simp [pymax, pymin, pyLT, not_lt.mpr h0, not_lt.mpr h1, max_eq_left h0,
        min_eq_left h1]
    · simp [pymax, pymin, pyLT, not_lt.mpr h0, h1, max_eq_left h0,
        min_eq_right h1.le]

/-- Claim C2 (amended): the relevance facet returns `0.7` in mock
mode, on a thrown error and on a parse failure, and clamps every
finite parsed value into `[0, 1]`; a parse of IEEE NaN is the one
outcome that escapes the clamp, so the result lies in `[0, 1]` for
every response other than a NaN parse. -/
theorem C2_relevance_score_amended (m : Bool) (resp : ScoreResponse)
    (h : resp ≠ .text (some .nan)) :
    inUnit (calculate_relevance_score m resp) = true ∧
    calculate_relevance_score true resp = DEFAULT_FALLBACKS_relevance_score ∧
    calculate_relevance_score false .thrown = DEFAULT_FALLBACKS_relevance_score ∧
    calculate_relevance_score false (.text none) = DEFAULT_FALLBACKS_relevance_score ∧
    (∀ q : ℚ, calculate_relevance_score false (.text (some (.fin q))) =
      .fin (min (max q 0) 1)) := by
  refine ⟨?_, rfl, rfl, rfl, relevance_clamp_fin⟩
  cases m with
  | true => exact (by decide : inUnit DEFAULT_FALLBACKS_relevance_score = true)
  | false =>
    cases resp with
    | thrown => decide
    | text parse =>
      cases parse with
      | none => decide
      | some f =>
        cases f with
        | nan => exact absurd rfl h
        | inf => decide
        | ninf => decide
        | fin q =>
          rw [relevance_clamp_fin q]
          simp only [inUnit, decide_eq_true_eq]
          exact ⟨le_min (le_max_right q 0) zero_le_one, min_le_right _ _⟩

/-- Claim C2, counterexample to the claim as stated: when the service
returns a text that Python's `float()` parses as NaN (such as
`"nan"`), the clamp passes NaN through, which is not in `[0, 1]`. -/
theorem C2_relevance_score_counterexample :
    calculate_relevance_score false (.text (some .nan)) = .nan ∧
    inUnit (calculate_relevance_score false (.text (some .nan))) = false := by
  decide

theorem C2_relevance_score_amended_witness :
    inUnit (calculate_relevance_score false (.text (some (.fin (mkRat 17 10))))) = true :=
  (C2_relevance_score_amended false (.text (some (.fin (mkRat 17 10)))) (by decide)).1

/-- Claim C3: every tag list the facet produces has between 3 and 5
elements: a parsed non-empty list is padded with `"#Africa"` to 3 and
truncated to 5, and every failure path returns the fixed 3-element
fallback list. -/
theorem C3_generate_tags_length (m : Bool) (resp : TagsResponse) :
    (3 ≤ (generate_tags m resp).length ∧ (generate_tags m resp).length ≤ 5) ∧
    (∀ t ts, generate_tags false (.parsedList (t :: ts)) =
      ((t :: ts) ++ List.replicate (CONTENT_LIMITS_min_tags - (t :: ts).length) "#Africa").take
        CONTENT_LIMITS_max_tags) ∧
    generate_tags false .thrown = DEFAULT_FALLBACKS_tags ∧
    generate_tags false .parsedNonList = DEFAULT_FALLBACKS_tags ∧
    generate_tags false (.parsedList []) = DEFAULT_FALLBACKS_tags := by
  refine ⟨?_, fun t ts => by simp [generate_tags], rfl, rfl, rfl⟩
  cases m with
  | true => simp [generate_tags]
  | false =>
    cases resp with
    | thrown => decide
    | parsedNonList => decide
    | parsedList tags =>
      by_cases htag : 0 < tags.length
      · simp only [generate_tags, Bool.false_eq_true, if_false, if_pos htag]
        simp only [List.length_take, List.length_append, List.length_replicate,
          CONTENT_LIMITS_min_tags, CONTENT_LIMITS_max_tags]
        omega
      · simp only [generate_tags, Bool.false_eq_true, if_false, if_neg htag]
        decide

/-- Claim C4: every `Geo` value `extract_geo` produces is consistent:
either latitude, longitude and map URL are all populated, with the
coordinates in range and the URL derived from them, or all three are
absent. -/
theorem C4_extract_geo_invariant (m : Bool) (resp : GeoResponse) :
    geoConsistent (extract_geo m resp) := by
  cases m with
  | true =>
    refine Or.inl ⟨mkRat (-1286389) 1000000, mkRat 36817223 1000000,
      rfl, rfl, by decide, by decide, by decide, by decide,
      (by decide : some "https://www.google.com/maps?q=-1.286389,36.817223" =
        some (mapUrlFor (mkRat (-1286389) 1000000) (mkRat 36817223 1000000)))⟩
  | false =>
    cases resp with
    | thrown => exact Or.inr ⟨rfl, rfl, rfl⟩
    | parsed lat? lng? =>
      show geoConsistent (match lat?.bind toRatQ, lng?.bind toRatQ with
        | some la, some ln =>
          if -90 ≤ la ∧ la ≤ 90 ∧ -180 ≤ ln ∧ ln ≤ 180 then
            { lat := some la, lng := some ln, map_url := some (mapUrlFor la ln) }
          else Geo.empty
        | _, _ => Geo.empty)
      cases lat?.bind toRatQ with
      | none => cases lng?.bind toRatQ <;> exact Or.inr ⟨rfl, rfl, rfl⟩
      | some la =>
        cases lng?.bind toRatQ with
        | none => exact Or.inr ⟨rfl, rfl, rfl⟩
        | some ln =>
          show geoConsistent (if -90 ≤ la ∧ la ≤ 90 ∧ -180 ≤ ln ∧ ln ≤ 180 then
            ({ lat := some la, lng := some ln, map_url := some (mapUrlFor la ln) } : Geo)
            else Geo.empty)
          by_cases hr : -90 ≤ la ∧ la ≤ 90 ∧ -180 ≤ ln ∧ ln ≤ 180
          · rw [if_pos hr]
            exact Or.inl ⟨la, ln, rfl, rfl, hr.1, hr.2.1, hr.2.2.1, hr.2.2.2, rfl⟩
          · rw [if_neg hr]
            exact Or.inr ⟨rfl, rfl, rfl⟩

/-- Claim C9: the media search calls return an absent result whenever
the API credential is missing or empty, the request fails in
transport, the response status is an error, the body cannot be
decoded, or the response carries no results; a present result arises
only from a response with at least one result (and the call never
raises — both functions are total). -/
theorem C9_brave_search_outcomes (env : BraveEnv) :
    (keyMissing env.apiKey = true →
      search_images env = none ∧ search_videos env = none) ∧
    (env.imageOutcome = .transportError ∨ env.imageOutcome = .statusError ∨
      env.imageOutcome = .badJson ∨ env.imageOutcome = .ok none ∨
      env.imageOutcome = .ok (some []) → search_images env = none) ∧
    (env.videoOutcome = .transportError ∨ env.videoOutcome = .statusError ∨
      env.videoOutcome = .badJson ∨ env.videoOutcome = .ok none ∨
      env.videoOutcome = .ok (some []) → search_videos env = none) ∧
    (∀ hit, search_images env = some hit →
      ∃ r rs, env.imageOutcome = .ok (some (r :: rs)) ∧ hit = mkImageHit r) ∧
    (∀ hit, search_videos env = some hit →
      ∃ r rs, env.videoOutcome = .ok (some (r :: rs)) ∧ hit = mkVideoHit r) := by
  by_cases hk : keyMissing env.apiKey = true
  · refine ⟨fun _ => ⟨?_, ?_⟩, fun _ => ?_, fun _ => ?_, fun hit hh => ?_, fun hit hh => ?_⟩ <;>
      simp_all [search_images, search_videos]
  · refine ⟨fun hmiss => absurd hmiss hk, fun himg => ?_, fun hvid => ?_,
      fun hit hh => ?_, fun hit hh => ?_⟩
    · rcases himg with h | h | h | h | h <;> simp [search_images, hk, h]
    · rcases hvid with h | h | h | h | h <;> simp [search_videos, hk, h]
    · rcases hio : env.imageOutcome with _ | _ | _ | results
      · simp [search_images, hk, hio] at hh
      · simp [search_images, hk, hio] at hh
      · simp [search_images, hk, hio] at hh
      · rcases results with _ | ⟨_ | ⟨r, rs⟩⟩
        · simp [search_images, hk, hio] at hh
        · simp [search_images, hk, hio] at hh
        · refine ⟨r, rs, rfl, ?_⟩
          simp [search_images, hk, hio] at hh
          exact hh.symm
    · rcases hvo : env.videoOutcome with _ | _ | _ | results
      · simp [search_videos, hk, hvo] at hh
      · simp [search_videos, hk, hvo] at hh
      · simp [search_videos, hk, hvo] at hh
      · rcases results with _ | ⟨_ | ⟨r, rs⟩⟩
        · simp [search_videos, hk, hvo] at hh
        · simp [search_videos, hk, hvo] at hh
        · refine ⟨r, rs, rfl, ?_⟩
          simp [search_videos, hk, hvo] at hh
          exact hh.symm

theorem C9_brave_search_outcomes_witness :
    search_images sampleEnv.brave = none ∧ search_videos sampleEnv.brave = none :=
  (C9_brave_search_outcomes sampleEnv.brave).1 (by decide)

theorem updateRow_slug (r : NewsArticleRow) (news : FinalNewsOutput) (now : String) :
    (updateRow r news now).slug = r.slug := rfl

theorem newRow_slug (news : FinalNewsOutput) (now : String) :
    (newRow news now).slug = news.id := rfl

/-- Updating the matching row in place preserves the lookup: the slug
is untouched, so the first matching row is the updated one. -/
theorem findRow_map_update (news : FinalNewsOutput) (now : String) :
    ∀ (table : Table) (row : NewsArticleRow),
    findRow table news.id = some row →
    findRow (table.map (fun r => if r.slug == news.id then updateRow r news now else r))
      news.id = some (updateRow row news now) := by
  intro table
  induction table with
  | nil => intro row h; simp [findRow] at h
  | cons r rest ih =>
    intro row h
    rw [findRow, List.find?_cons] at h
    by_cases hs : (r.slug == news.id) = true
    · rw [hs] at h
      obtain rfl := Option.some.inj h
      rw [List.map_cons, if_pos hs, findRow, List.find?_cons, updateRow_slug, hs]
    · have hs' : (r.slug == news.id) = false := by simpa using hs
      rw [hs'] at h
      rw [List.map_cons, if_neg hs, findRow, List.find?_cons, hs']
      exact ih row h

/-- Appending the freshly inserted row makes it the lookup result when
the slug was previously absent. -/
theorem findRow_append_new (news : FinalNewsOutput) (now : String) :
    ∀ table : Table, findRow table news.id = none →
    findRow (table ++ [newRow news now]) news.id = some (newRow news now) := by
  intro table
  induction table with
  | nil =>
    intro _
    simp [findRow, List.find?_cons, newRow_slug]
  | cons r rest ih =>
    intro h
    rw [findRow, List.find?_cons] at h
    by_cases hs : (r.slug == news.id) = true
    · rw [hs] at h
      simp at h
    · have hs' : (r.slug == news.id) = false := by simpa using hs
      rw [hs'] at h
      simpa [List.cons_append, findRow, List.find?_cons, hs'] using ih h

theorem mkFinalOutput_ok (raw : RawNewsInput) (newId ts : String) (e : EnrichedData)
    (out : FinalNewsOutput) (h : mkFinalOutput raw newId ts e = .ok out) :
    out = outputFor raw newId ts e := by
  unfold mkFinalOutput at h
  split at h
  · exact (Except.ok.inj h).symm
  · exact absurd h (by simp)

/-- Claim C10 (amended): when a row with the identifier already
exists, `save_news` leaves its `slug`, `ingested_at` and `created_at`
columns unchanged and replaces the content columns with the incoming
values — and the ORM's `onupdate` additionally refreshes the
`updated_at` timestamp on flush. -/
theorem C10_save_news_update_amended (news : FinalNewsOutput) (table : Table)
    (now : String) (row : NewsArticleRow) (h : findRow table news.id = some row) :
    ∃ t1, save_news true now news table = .ok (news, t1) ∧
      findRow t1 news.id = some (updateRow row news now) ∧
      (updateRow row news now).slug = row.slug ∧
      (updateRow row news now).ingested_at = row.ingested_at ∧
      (updateRow row news now).created_at = row.created_at ∧
      (updateRow row news now).title = news.title ∧
      (updateRow row news now).body = news.body ∧
      (updateRow row news now).source_url = news.source_url ∧
      (updateRow row news now).author = news.publisher ∧
      (updateRow row news now).published_date = news.published_at ∧
      (updateRow row news now).summary = news.summary ∧
      (updateRow row news now).tags = news.tags ∧
      (updateRow row news now).sentiment_label = news.context.social_sentiment ∧
      (updateRow row news now).sentiment_score = .fin 0 ∧
      (updateRow row news now).featured_image_url = news.media.featured_image_url ∧
      (updateRow row news now).related_video_url = news.media.related_video_url ∧
      (updateRow row news now).media_justification = news.media.media_justification ∧
      (updateRow row news now).wikipedia_snippet = news.context.wikipedia_snippet ∧
      (updateRow row news now).search_trend = news.context.search_trend ∧
      (updateRow row news now).geo_lat = news.geo.lat ∧
      (updateRow row news now).geo_lng = news.geo.lng ∧
      (updateRow row news now).map_url = news.geo.map_url ∧
      (updateRow row news now).relevance_score = news.relevance_score ∧
      (updateRow row news now).updated_at = now := by
  refine ⟨_, ?_, findRow_map_update news now table row h, rfl, rfl, rfl, rfl, rfl,
    rfl, rfl, rfl, rfl, rfl, rfl, rfl, rfl, rfl, rfl, rfl, rfl, rfl, rfl, rfl, rfl, rfl⟩
  unfold save_news
  rw [h]
  rfl

theorem C10_save_news_update_amended_witness :
    ∃ t1, save_news true "t1" sampleNews [sampleRow] = .ok (sampleNews, t1) ∧
      findRow t1 sampleNews.id = some (updateRow sampleRow sampleNews "t1") := by
  obtain ⟨t1, h1, h2, _⟩ :=
    C10_save_news_update_amended sampleNews [sampleRow] "t1" sampleRow (by decide)
  exact ⟨t1, h1, h2⟩

/-- Claim C10, counterexample to the claim as stated: updating an
existing row also rewrites the `updated_at` column (ORM `onupdate`),
so the replaced columns are not limited to the listed content
columns. -/
theorem C10_save_news_update_counterexample :
    save_news true "t1" sampleNews [sampleRow]
      = .ok (sampleNews, [updateRow sampleRow sampleNews "t1"]) ∧
    (updateRow sampleRow sampleNews "t1").updated_at = "t1" ∧
    sampleRow.updated_at = "t0" := by decide

/-- Claim C1: one ingestion request either succeeds with a fully
enriched record whose content is also persisted under its identifier,
or fails with an error and leaves the stored table exactly as it was;
in particular an enrichment failure or a persistence (flush) failure
always yields the error outcome with the table unchanged. -/
theorem C1_ingest_atomicity (m : Bool) (env : AIEnv) (flushOk : Bool)
    (raw : RawNewsInput) (newId ts now : String) (table : Table) :
    ((∃ msg, runIngestRequest m env flushOk raw newId ts now table = (.error msg, table)) ∨
      (∃ out t1, runIngestRequest m env flushOk raw newId ts now table = (.ok out, t1) ∧
        (∃ enr, enrich_news m env raw = .ok enr ∧ out = outputFor raw newId ts enr) ∧
        (∃ row, findRow t1 out.id = some row ∧ row.title = out.title ∧
          row.body = out.body ∧ row.summary = out.summary ∧ row.tags = out.tags ∧
          row.relevance_score = out.relevance_score ∧ row.geo_lat = out.geo.lat ∧
          row.geo_lng = out.geo.lng ∧ row.map_url = out.geo.map_url))) ∧
    (∀ e, enrich_news m env raw = .error e →
      runIngestRequest m env flushOk raw newId ts now table =
        (.error ("News ingestion failed: " ++ e), table)) ∧
    (flushOk = false →
      ∃ msg, runIngestRequest m env flushOk raw newId ts now table = (.error msg, table)) := by
  cases henr : enrich_news m env raw with
  | error e =>
    have hrun : runIngestRequest m env flushOk raw newId ts now table =
        (.error ("News ingestion failed: " ++ e), table) := by
      simp [runIngestRequest, ingest_news, henr]
    refine ⟨Or.inl ⟨_, hrun⟩, ?_, fun _ => ⟨_, hrun⟩⟩
    intro e' he'
    obtain rfl := Except.error.inj he'
    exact hrun
  | ok enr =>
    cases hmk : mkFinalOutput raw newId ts enr with
    | error e2 =>
      have hrun : runIngestRequest m env flushOk raw newId ts now table =
          (.error ("News ingestion failed: " ++ e2), table) := by
        simp [runIngestRequest, ingest_news, henr, hmk]
      refine ⟨Or.inl ⟨_, hrun⟩, ?_, fun _ => ⟨_, hrun⟩⟩
      intro e' he'
      exact absurd he' (by simp)
    | ok out =>
      obtain rfl : out = outputFor raw newId ts enr := mkFinalOutput_ok _ _ _ _ _ hmk
      cases flushOk with
      | false =>
        have hrun : runIngestRequest m env false raw newId ts now table =
            (.error ("News ingestion failed: " ++ "Failed to save news article: flush failed"),
              table) := by
          cases hfind : findRow table (outputFor raw newId ts enr).id <;>
            simp [runIngestRequest, ingest_news, henr, hmk, save_news, hfind]
        refine ⟨Or.inl ⟨_, hrun⟩, ?_, fun _ => ⟨_, hrun⟩⟩
        intro e' he'
        exact absurd he' (by simp)
      | true =>
        cases hfind : findRow table (outputFor raw newId ts enr).id with
        | some row =>
          have hrun : runIngestRequest m env true raw newId ts now table =
              (.ok (outputFor raw newId ts enr),
                table.map (fun r =>
                  if r.slug == (outputFor raw newId ts enr).id then
                    updateRow r (outputFor raw newId ts enr) now
                  else r)) := by
            simp [runIngestRequest, ingest_news, henr, hmk, save_news, hfind]
          refine ⟨Or.inr ⟨_, _, hrun, ⟨enr, rfl, rfl⟩,
            ⟨updateRow row (outputFor raw newId ts enr) now,
              findRow_map_update _ now table row hfind,
              rfl, rfl, rfl, rfl, rfl, rfl, rfl, rfl⟩⟩, ?_, by intro h; cases h⟩
          intro e' he'
          exact absurd he' (by simp)
        | none =>
          have hrun : runIngestRequest m env true raw newId ts now table =
              (.ok (outputFor raw newId ts enr),
                table ++ [newRow (outputFor raw newId ts enr) now]) := by
            simp [runIngestRequest, ingest_news, henr, hmk, save_news, hfind]
          refine ⟨Or.inr ⟨_, _, hrun, ⟨enr, rfl, rfl⟩,
            ⟨newRow (outputFor raw newId ts enr) now,
              findRow_append_new _ now table hfind,
              rfl, rfl, rfl, rfl, rfl, rfl, rfl, rfl⟩⟩, ?_, by intro h; cases h⟩
          intro e' he'
          exact absurd he' (by simp)

theorem C1_ingest_atomicity_witness :
    runIngestRequest false sampleEnv true sampleRaw "id1" "ts1" "now1" [] =
      (.error ("News ingestion failed: " ++ "net down"), []) :=
  (C1_ingest_atomicity false sampleEnv true sampleRaw "id1" "ts1" "now1" []).2.1
    "net down" rfl

/-- Claim C5: mock-mode ingestion of a short article succeeds and
yields the documented summary (first 30 words joined by single spaces
plus `"..."`), tag list, relevance score `0.7`, and Nairobi geo
point. -/
theorem C5_mock_ingestion (title body srcUrl : String) (author pubDate : Option String)
    (env : AIEnv) (newId ts now : String) (table : Table)
    (_h : wordCount body < 500) :
    ∃ out t1, runIngestRequest true env true
      { title := title, body := body, source_url := srcUrl,
        author := author, published_date := pubDate } newId ts now table = (.ok out, t1) ∧
      out.summary = String.mk (joinSpace ((wsSplit body.data).take 30)) ++ "..." ∧
      out.tags = ["#Africa", "#News", "#Technology"] ∧
      out.relevance_score = .fin (mkRat 7 10) ∧
      out.geo = { lat := some (mkRat (-1286389) 1000000),
                  lng := some (mkRat 36817223 1000000),
                  map_url := some "https://www.google.com/maps?q=-1.286389,36.817223" } := by
  set raw : RawNewsInput :=
    { title := title, body := body, source_url := srcUrl,
      author := author, published_date := pubDate } with hraw
  have henr : enrich_news true env raw = .ok (mockEnrichedData env raw) := rfl
  have hmk : mkFinalOutput raw newId ts (mockEnrichedData env raw) =
      .ok (outputFor raw newId ts (mockEnrichedData env raw)) := rfl
  cases hfind : findRow table newId with
  | some row =>
    have hrun : runIngestRequest true env true raw newId ts now table =
        (.ok (outputFor raw newId ts (mockEnrichedData env raw)),
          table.map (fun r =>
            if r.slug == (outputFor raw newId ts (mockEnrichedData env raw)).id then
              updateRow r (outputFor raw newId ts (mockEnrichedData env raw)) now
            else r)) := by
      simp only [runIngestRequest, ingest_news, henr, save_news, hmk,
        show (outputFor raw newId ts (mockEnrichedData env raw)).id = newId from rfl, hfind]
      rfl
    exact ⟨_, _, hrun, rfl, rfl, rfl, rfl⟩
  | none =>
    have hrun : runIngestRequest true env true raw newId ts now table =
        (.ok (outputFor raw newId ts (mockEnrichedData env raw)),
          table ++ [newRow (outputFor raw newId ts (mockEnrichedData env raw)) now]) := by
      simp only [runIngestRequest, ingest_news, henr, save_news, hmk,
        show (outputFor raw newId ts (mockEnrichedData env raw)).id = newId from rfl, hfind]
      rfl
    exact ⟨_, _, hrun, rfl, rfl, rfl, rfl⟩

theorem C5_mock_ingestion_witness :
    ∃ out t1, runIngestRequest true sampleEnv true
      { title := "Solar plant opens in Kenya", body := "Across the county new panels rise",
        source_url := "https://example.com/a", author := none, published_date := none }
      "id1" "ts1" "now1" [] = (.ok out, t1) ∧
      out.summary =
        String.mk (joinSpace ((wsSplit "Across the county new panels rise".data).take 30))
          ++ "..." ∧
      out.tags = ["#Africa", "#News", "#Technology"] ∧
      out.relevance_score = .fin (mkRat 7 10) ∧
      out.geo = { lat := some (mkRat (-1286389) 1000000),
                  lng := some (mkRat 36817223 1000000),
                  map_url := some "https://www.google.com/maps?q=-1.286389,36.817223" } :=
  C5_mock_ingestion "Solar plant opens in Kenya" "Across the county new panels rise"
    "https://example.com/a" none none sampleEnv "id1" "ts1" "now1" [] (by decide)

/-- One-step unfolding of `likeMatch` on a nonempty pattern. -/
theorem likeMatch_cons_eq (c : Char) (ps s : List Char) :
    likeMatch (c :: ps) s =
      (if c = pctChar then
        (List.range (s.length + 1)).any (fun i => likeMatch ps (s.drop i))
      else if c = bsChar then
        match ps, s with
        | d :: ps1, e :: s1 => ciEq d e && likeMatch ps1 s1
        | _, _ => false
      else
        match s with
        | [] => false
        | e :: s1 =>
          if c = usChar then likeMatch ps s1
          else ciEq c e && likeMatch ps s1) := by
  rw [likeMatch.eq_def]

theorem likeMatch_pct_nil (s : List Char) : likeMatch [pctChar] s = true := by
  rw [likeMatch_cons_eq, if_pos rfl, List.any_eq_true]
  refine ⟨s.length, List.mem_range.mpr (Nat.lt_succ_self _), ?_⟩
  rw [List.drop_length]
  rfl

/-- A wildcard-free pattern followed by `%` matches exactly the texts
it is a case-insensitive prefix of. -/
theorem likeMatch_word_pct : ∀ (q : List Char),
    (∀ c ∈ q, c ≠ pctChar ∧ c ≠ usChar ∧ c ≠ bsChar) →
    ∀ s, (likeMatch (q ++ [pctChar]) s = true ↔ ciStarts q s = true) := by
  intro q
  induction q with
  | nil =>
    intro _ s
    rw [List.nil_append]
    simp [likeMatch_pct_nil, ciStarts]
  | cons a q' ih =>
    intro hq s
    obtain ⟨ha1, ha2, ha3⟩ := hq a (by simp)
    have hq' : ∀ c ∈ q', c ≠ pctChar ∧ c ≠ usChar ∧ c ≠ bsChar :=
      fun c hc => hq c (by simp [hc])
    rw [List.cons_append, likeMatch_cons_eq, if_neg ha1, if_neg ha3]
    cases s with
    | nil =>
      show false = true ↔ ciStarts (a :: q') [] = true
      simp [ciStarts]
    | cons e s1 =>
      show (if a = usChar then likeMatch (q' ++ [pctChar]) s1
        else ciEq a e && likeMatch (q' ++ [pctChar]) s1) = true ↔
          ciStarts (a :: q') (e :: s1) = true
      rw [if_neg ha2]
      simp only [ciStarts, Bool.and_eq_true]
      exact and_congr_right fun _ => ih hq' s1

theorem likeMatch_pct_cons (rest s : List Char) :
    likeMatch (pctChar :: rest) s = true ↔
      ∃ i, i ≤ s.length ∧ likeMatch rest (s.drop i) = true := by
  rw [likeMatch_cons_eq, if_pos rfl, List.any_eq_true]
  constructor
  · rintro ⟨i, h1, h2⟩
    exact ⟨i, Nat.lt_succ_iff.mp (List.mem_range.mp h1), h2⟩
  · rintro ⟨i, h1, h2⟩
    exact ⟨i, List.mem_range.mpr (Nat.lt_succ_iff.mpr h1), h2⟩

theorem ciSub_iff_exists (q : List Char) : ∀ s,
    ciSub q s = true ↔ ∃ i, i ≤ s.length ∧ ciStarts q (s.drop i) = true := by
  intro s
  induction s with
  | nil =>
    constructor
    · intro h
      have hq : q = [] := by
        cases q with
        | nil => rfl
        | cons a q' => simp [ciSub] at h
      subst hq
      exact ⟨0, Nat.le_refl _, rfl⟩
    · rintro ⟨i, hi, hst⟩
      obtain rfl : i = 0 := Nat.le_zero.mp hi
      cases q with
      | nil => rfl
      | cons a q' => simp [ciStarts] at hst
  | cons b s1 ih =>
    simp only [ciSub, Bool.or_eq_true]
    constructor
    · rintro (h | h)
      · exact ⟨0, by omega, h⟩
      · obtain ⟨i, hi, hst⟩ := ih.mp h
        exact ⟨i + 1, by simpa using hi, by simpa [List.drop_succ_cons] using hst⟩
    · rintro ⟨i, hi, hst⟩
      cases i with
      | zero => exact Or.inl hst
      | succ j =>
        refine Or.inr (ih.mpr ⟨j, by simpa using hi, ?_⟩)
        simpa [List.drop_succ_cons] using hst

/-- The `ILIKE` pattern `f"%{query}%"` built from a wildcard-free
query matches exactly the texts containing the query
case-insensitively. -/
theorem likeMatch_contains (q : List Char)
    (hq : ∀ c ∈ q, c ≠ pctChar ∧ c ≠ usChar ∧ c ≠ bsChar) (s : List Char) :
    likeMatch (pctChar :: (q ++ [pctChar])) s = ciSub q s := by
  have hiff : likeMatch (pctChar :: (q ++ [pctChar])) s = true ↔ ciSub q s = true := by
    rw [likeMatch_pct_cons, ciSub_iff_exists]
    exact exists_congr fun i =>
      and_congr_right fun _ => likeMatch_word_pct q hq _
  cases h1 : likeMatch (pctChar :: (q ++ [pctChar])) s <;>
    cases h2 : ciSub q s <;> simp_all

theorem rowMatchesQuery_eq (q : String) (hq : noWildcard q) (r : NewsArticleRow) :
    rowMatchesQuery (pctChar :: (q.data ++ [pctChar])) r = rowContainsQuery q r := by
  unfold rowMatchesQuery rowContainsQuery ciSubStr
  rw [likeMatch_contains q.data hq, likeMatch_contains q.data hq,
    likeMatch_contains q.data hq, likeMatch_contains q.data hq]

/-- Claim C7 (amended): for a query containing no `ILIKE`
metacharacter (`%`, `_`, backslash), `search_news` returns at most
`limit` rows, each drawn from the table and containing the query
case-insensitively in its title, body, summary or serialized tag
list, ordered by relevance score descending.  (A query containing a
metacharacter is interpolated into the pattern unescaped, so it
matches as a wildcard instead — see the counterexample.) -/
theorem C7_search_news_amended (query : String) (limit : Nat) (table : Table)
    (h : noWildcard query) :
    (search_news query limit table).length ≤ limit ∧
    (∀ r ∈ search_news query limit table,
      r ∈ table ∧ rowContainsQuery query r = true) ∧
    List.Sorted relDesc (search_news query limit table) := by
  unfold search_news
  refine ⟨List.length_take_le _ _, ?_, ?_⟩
  · intro r hr
    have hr1 : r ∈ (table.filter
        (rowMatchesQuery (pctChar :: (query.data ++ [pctChar])))).insertionSort relDesc :=
      List.take_subset _ _ hr
    have hr2 : r ∈ table.filter
        (rowMatchesQuery (pctChar :: (query.data ++ [pctChar]))) :=
      (List.mem_insertionSort relDesc).mp hr1
    have hr3 := List.mem_filter.mp hr2
    refine ⟨hr3.1, ?_⟩
    rw [← rowMatchesQuery_eq query h r]
    exact hr3.2
  · exact List.Pairwise.sublist (List.take_sublist _ _)
      (List.sorted_insertionSort relDesc _)

theorem C7_search_news_amended_witness :
    (search_news "mining" 10 [searchSampleRow]).length ≤ 10 :=
  (C7_search_news_amended "mining" 10 [searchSampleRow] (by decide)).1

/-- Claim C7, counterexample to the claim as stated: the query `"%"`
is interpolated into the `ILIKE` pattern unescaped, so the search
returns a row although none of its searched columns contains `"%"`. -/
theorem C7_search_news_counterexample :
    search_news "%" 10 [searchSampleRow] = [searchSampleRow] ∧
    rowContainsQuery "%" searchSampleRow = false := by decide

end Swen
